import Mathlib

/-
A shallow embedding of the TrustedBot conversational front-end
(src/app.py) and proofs about its session state machine.

The Python module keeps two pieces of global mutable state: `context`
(the ordered message log, seeded with a system prompt) and `panels`
(the rendered transcript rows), plus the `chat_area` widget whose
`objects` field receives the full row list on every mutation, and the
`inp` text-input widget.  We model this state as the structure
`AppState`, the OpenAI call as an abstract `CompletionClient`
(`List Message → Except Unit String`, with `Except.error` standing for
a raised exception), and the callbacks `add_message`, `boot_greeting`,
`on_send_click` and `reset_memory` as pure state transformers.

Ghost instrumentation (`nRenders`, `nCalls`, `nGreetings`, `nNotices`)
counts observable events of the source: assignments to
`chat_area.objects`, invocations of `get_completion_from_messages`,
invocations of `boot_greeting`, and executions of the empty-input
branch.  The counters are write-only: no transition reads them.
-/

namespace TrustedBot

/-- Roles of messages in the conversation memory, as used by app.py:
`system` for the fixed prompt, `user` and `assistant` for turns. -/
inductive Role where
  | system
  | user
  | assistant
  deriving DecidableEq

/-- A conversation-memory entry: Python dict `{'role': r, 'content': t}`. -/
structure Message where
  role : Role
  text : String
  deriving DecidableEq

/-- Role names as the Python strings passed to `add_message`. -/
def Role.toStr : Role → String
  | .system => "system"
  | .user => "user"
  | .assistant => "assistant"

/-- Python `str.strip()` with no argument: remove leading and trailing
whitespace.  Modelled structurally over the character list so that it
evaluates inside the kernel. -/
def pyStrip (s : String) : String :=
  String.mk
    ((s.toList.dropWhile Char.isWhitespace).reverse.dropWhile Char.isWhitespace).reverse

/-- Python `str.capitalize`: first character upper-cased, the rest
lower-cased (only ASCII role names reach it in app.py). -/
def pyCapitalize (s : String) : String :=
  match s.toList with
  | [] => ""
  | c :: cs => String.mk (c.toUpper :: cs.map Char.toLower)

/-- One rendered transcript row: `pn.Row(f"{role.capitalize()}:",
pn.pane.HTML(html_text, width=600))` modelled as the label string and
the HTML payload string. -/
structure TranscriptRow where
  label : String
  html : String
  deriving DecidableEq

/-- The system prompt string from app.py lines 24-36 (the triple-quoted
CoT-SC instruction text). -/
def systemPrompt : String :=
  "\nYou are the Trusted ChatBot, a helpful assistant that generates trusted answers using the CoT-SC (Chain-of-Thought Self-Consistency) method.\n\nFor every question:\n1. Generate **5 different reasoning paths**.\n2. Write each path on a **new line**, in the format:\n   Path 1: ...\n   Path 2: ...\n   Path 3: ...\n3. After the 5 paths, write:\n   ✅ Final Answer: [your best consistent answer]\nUse Markdown formatting with line breaks for readability.\n"

/-- Background color chosen by `add_message`: light green for the
assistant, light blue otherwise. -/
def msgColor (role : Role) : String :=
  if role = Role.assistant then "#71E883BD" else "#94dce6b3"

/-- The HTML message box built by `add_message` (f-string on line 77). -/
def msgHtml (role : Role) (text : String) : String :=
  let color := msgColor role
  s!"<div style=\x27background-color:{color}; padding:5px; white-space:pre-wrap;\x27>{text}</div>"

/-- The transcript row `add_message` appends to `panels` for a message. -/
def renderRow (m : Message) : TranscriptRow :=
  ⟨pyCapitalize m.role.toStr ++ ":", msgHtml m.role m.text⟩

/-- The whole mutable state of the app module: the conversation memory
`context`, the row list `panels`, the currently displayed list
`chat_area` (the widget's `objects`), the text-input contents `inp`,
and the ghost event counters. -/
structure AppState where
  context : List Message
  panels : List TranscriptRow
  chat_area : List TranscriptRow
  inp : String
  nRenders : Nat
  nCalls : Nat
  nGreetings : Nat
  nNotices : Nat

/-- The completion client boundary: given the full log it returns the
reply string, or fails (`Except.error`, the raised exception of the
`try` block around `get_completion_from_messages`). -/
def CompletionClient : Type := List Message → Except Unit String

/-- The try/except block of `on_send_click` lines 139-143: the reply on
success, the apology text when the client raises. -/
def apology : String := "Sorry, something went wrong. Please try again."

/-- Result of the guarded completion call: `bot_reply` after the
try/except block. -/
def cc_result (cc : CompletionClient) (l : List Message) : String :=
  match cc l with
  | .ok r => r
  | .error _ => apology

/-- app.py `add_message(role, text)`: append the message to `context`,
append its rendered row to `panels`, and hand the full row list to the
chat area (one render). -/
def add_message (role : Role) (text : String) (s : AppState) : AppState :=
  { s with
    context := s.context ++ [⟨role, text⟩],
    panels := s.panels ++ [renderRow ⟨role, text⟩],
    chat_area := s.panels ++ [renderRow ⟨role, text⟩],
    nRenders := s.nRenders + 1 }

/-- The fixed greeting text of `boot_greeting`. -/
def bot_greet : String := "Hi! I’m TrustedBot. How can I help you today?"

/-- The canned notice shown for an empty submission. -/
def oops_notice : String := "Oops! I didn\x27t get that. Could you please type something?"

/-- app.py `boot_greeting()`: adds the fixed assistant greeting. -/
def boot_greeting (s : AppState) : AppState :=
  { add_message Role.assistant bot_greet s with nGreetings := s.nGreetings + 1 }

/-- The module-level initial `context` (system prompt only). -/
def initContext : List Message := [⟨Role.system, systemPrompt⟩]

/-- State of the module after the top-level code ran: `context` seeded
with the system prompt, empty `panels`/`chat_area`, empty input, then
`boot_greeting()` called once at startup (line 116). -/
def initState : AppState :=
  boot_greeting
    { context := initContext, panels := [], chat_area := [], inp := "",
      nRenders := 0, nCalls := 0, nGreetings := 0, nNotices := 0 }

/-- app.py `on_send_click`: trim the input; on empty input add the
canned assistant notice and return; otherwise clear the input box,
add the user message, call the client on the whole current `context`
inside try/except, and add the resulting assistant message. -/
def on_send_click (cc : CompletionClient) (s : AppState) : AppState :=
  let user_text := pyStrip s.inp
  if user_text = "" then
    { add_message Role.assistant oops_notice s with nNotices := s.nNotices + 1 }
  else
    let s1 := { s with inp := "" }
    let s2 := add_message Role.user user_text s1
    let bot_reply := cc_result cc s2.context
    { add_message Role.assistant bot_reply s2 with nCalls := s2.nCalls + 1 }

/-- app.py `reset_memory`: keep only `context[0]` (modelled as
`take 1`, which is `[context[0]]` on every reachable, hence nonempty,
log), clear `panels`, clear the displayed chat (a render of the empty
list), and re-run `boot_greeting`. -/
def reset_memory (s : AppState) : AppState :=
  boot_greeting
    { s with context := s.context.take 1, panels := [], chat_area := [],
             nRenders := s.nRenders + 1 }

/-- Submitting a string: the Input Gateway puts `text` into the input
widget and clicks Send. -/
def submit (cc : CompletionClient) (text : String) (s : AppState) : AppState :=
  on_send_click cc { s with inp := text }

/-- External events the session reacts to. -/
inductive Op where
  | submit (text : String)
  | reset

/-- One transition of the session state machine. -/
def step (cc : CompletionClient) (s : AppState) : Op → AppState
  | .submit text => submit cc text s
  | .reset => reset_memory s

/-- Run a sequence of events from a state. -/
def run (cc : CompletionClient) (s : AppState) (ops : List Op) : AppState :=
  ops.foldl (step cc) s

/-- The original system-prompt message. -/
def sys_message : Message := ⟨Role.system, systemPrompt⟩

/-- The greeting message appended by `boot_greeting`. -/
def greet_message : Message := ⟨Role.assistant, bot_greet⟩

/-- Number of assistant-role entries in a log. -/
def assistantCount : List Message → Nat
  | [] => 0
  | m :: t => (if m.role = Role.assistant then 1 else 0) + assistantCount t

/-
Basic unfolding lemmas for the state transformers.
-/

@[simp]
theorem add_message_context (role : Role) (text : String) (s : AppState) :
    (add_message role text s).context = s.context ++ [⟨role, text⟩] := rfl

@[simp]
theorem add_message_panels (role : Role) (text : String) (s : AppState) :
    (add_message role text s).panels = s.panels ++ [renderRow ⟨role, text⟩] := rfl

@[simp]
theorem add_message_chat_area (role : Role) (text : String) (s : AppState) :
    (add_message role text s).chat_area = s.panels ++ [renderRow ⟨role, text⟩] := rfl

@[simp]
theorem add_message_inp (role : Role) (text : String) (s : AppState) :
    (add_message role text s).inp = s.inp := rfl

@[simp]
theorem add_message_nRenders (role : Role) (text : String) (s : AppState) :
    (add_message role text s).nRenders = s.nRenders + 1 := rfl

@[simp]
theorem add_message_nCalls (role : Role) (text : String) (s : AppState) :
    (add_message role text s).nCalls = s.nCalls := rfl

@[simp]
theorem add_message_nGreetings (role : Role) (text : String) (s : AppState) :
    (add_message role text s).nGreetings = s.nGreetings := rfl

@[simp]
theorem add_message_nNotices (role : Role) (text : String) (s : AppState) :
    (add_message role text s).nNotices = s.nNotices := rfl

theorem on_send_click_of_empty (cc : CompletionClient) (s : AppState)
    (h : pyStrip s.inp = "") :
    on_send_click cc s =
      { add_message Role.assistant oops_notice s with nNotices := s.nNotices + 1 } := by
  unfold on_send_click
  rw [if_pos h]

theorem on_send_click_of_nonempty (cc : CompletionClient) (s : AppState)
    (h : pyStrip s.inp ≠ "") :
    on_send_click cc s =
      { add_message Role.assistant
          (cc_result cc (s.context ++ [⟨Role.user, pyStrip s.inp⟩]))
          (add_message Role.user (pyStrip s.inp) { s with inp := "" })
        with nCalls := s.nCalls + 1 } := by
  unfold on_send_click
  rw [if_neg h]
  rfl

/-
List helper lemmas.
-/

theorem head_append_single {α : Type} (l : List α) (m a : α)
    (h : l.head? = some a) : (l ++ [m]).head? = some a := by
  cases l with
  | nil => simp at h
  | cons x t => simpa using h

theorem ne_nil_of_head {α : Type} (l : List α) (a : α)
    (h : l.head? = some a) : l ≠ [] := by
  cases l <;> simp_all

theorem drop_one_append {α : Type} (l : List α) (m : α) (h : l ≠ []) :
    (l ++ [m]).drop 1 = l.drop 1 ++ [m] := by
  cases l with
  | nil => exact absurd rfl h
  | cons x t => simp

theorem assistantCount_append (l : List Message) (m : Message) :
    assistantCount (l ++ [m]) =
      assistantCount l + (if m.role = Role.assistant then 1 else 0) := by
  induction l with
  | nil => simp [assistantCount]
  | cons x t ih => simp [assistantCount, ih]; omega

/-
The reachability invariant of the session state machine.
-/

/-- Invariant maintained by every transition from the initial state:
the log starts with the original system prompt, the row list is the
1:1 projection of the log entries after index 0, the displayed chat
equals the row list, and every assistant entry is accounted for by a
greeting, an empty-input notice, or a completion-client call. -/
structure Inv (s : AppState) : Prop where
  head_sys : s.context.head? = some sys_message
  panels_proj : s.panels = (s.context.drop 1).map renderRow
  chat_sync : s.chat_area = s.panels
  assistant_bound :
    assistantCount s.context ≤ s.nGreetings + s.nNotices + s.nCalls

theorem inv_init : Inv initState := by
  refine ⟨rfl, rfl, rfl, ?_⟩
  show assistantCount [sys_message, greet_message] ≤ 1 + 0 + 0
  simp [assistantCount, sys_message, greet_message]

theorem inv_add_message (role : Role) (text : String) (s : AppState)
    (hs : Inv s) :
    (add_message role text s).context.head? = some sys_message ∧
    (add_message role text s).panels =
      ((add_message role text s).context.drop 1).map renderRow ∧
    (add_message role text s).chat_area = (add_message role text s).panels := by
  have hne : s.context ≠ [] := ne_nil_of_head _ _ hs.head_sys
  refine ⟨head_append_single _ _ _ hs.head_sys, ?_, rfl⟩
  simp [drop_one_append _ _ hne, hs.panels_proj]

theorem inv_step (cc : CompletionClient) (s : AppState) (op : Op)
    (hs : Inv s) : Inv (step cc s op) := by
  have hne : s.context ≠ [] := ne_nil_of_head _ _ hs.head_sys
  cases op with
  | reset =>
    obtain ⟨x, t, hxt⟩ : ∃ x t, s.context = x :: t := by
      cases hc : s.context with
      | nil => exact absurd hc hne
      | cons x t => exact ⟨x, t, rfl⟩
    have hx : x = sys_message := by
      have := hs.head_sys
      rw [hxt] at this
      simpa using this
    show Inv (reset_memory s)
    unfold reset_memory boot_greeting
    refine ⟨?_, ?_, ?_, ?_⟩
    · simp [hxt, hx]
    · simp [hxt]
    · rfl
    · simp only [add_message_context]
      rw [hxt, hx]
      show assistantCount ([sys_message].take 1 ++ [⟨Role.assistant, bot_greet⟩]) ≤ _
      simp [assistantCount, sys_message]
      omega
  | submit text =>
    show Inv (submit cc text s)
    unfold submit
    by_cases h : pyStrip text = ""
    · rw [on_send_click_of_empty cc _ (by simpa using h)]
      have hinv : Inv { s with inp := text } :=
        ⟨hs.head_sys, hs.panels_proj, hs.chat_sync, hs.assistant_bound⟩
      obtain ⟨h1, h2, h3⟩ := inv_add_message Role.assistant oops_notice _ hinv
      refine ⟨h1, h2, h3, ?_⟩
      simp only [add_message_context, add_message_nGreetings, add_message_nCalls]
      rw [assistantCount_append]
      have hb := hs.assistant_bound
      simp only [if_pos rfl]
      simp
      omega
    · rw [on_send_click_of_nonempty cc _ (by simpa using h)]
      have hinv1 : Inv { s with inp := ("" : String) } :=
        ⟨hs.head_sys, hs.panels_proj, hs.chat_sync, hs.assistant_bound⟩
      have hu := inv_add_message Role.user (pyStrip text) _ hinv1
      have hinv2 : Inv (add_message Role.user (pyStrip text) { s with inp := ("" : String) }) := by
        refine ⟨hu.1, hu.2.1, hu.2.2, ?_⟩
        simp only [add_message_context, add_message_nGreetings, add_message_nCalls,
          add_message_nNotices]
        rw [assistantCount_append]
        have hb := hs.assistant_bound
        simp
        omega
      have hinp : pyStrip ({ s with inp := text } : AppState).inp = pyStrip text := rfl
      obtain ⟨h1, h2, h3⟩ :=
        inv_add_message Role.assistant
          (cc_result cc (s.context ++ [⟨Role.user, pyStrip text⟩])) _ hinv2
      rw [hinp]
      refine ⟨h1, h2, h3, ?_⟩
      simp only [add_message_context, add_message_nGreetings, add_message_nCalls,
        add_message_nNotices]
      rw [assistantCount_append, assistantCount_append]
      have hb := hs.assistant_bound
      simp
      omega

theorem inv_run (cc : CompletionClient) (ops : List Op) (s : AppState)
    (hs : Inv s) : Inv (run cc s ops) := by
  induction ops generalizing s with
  | nil => exact hs
  | cons op t ih => exact ih _ (inv_step cc s op hs)

/-
Concrete completion-client stubs used in witnesses and counterexamples.
-/

/-- A stub client that always replies with a fixed nonempty string. -/
def ccHi : CompletionClient := fun _ => Except.ok "hi there"

/-- A stub client that always raises. -/
def ccFail : CompletionClient := fun _ => Except.error ()

/-- A stub client whose reply is the empty string. -/
def ccEmptyReply : CompletionClient := fun _ => Except.ok ""

/-
Characterizations of single transitions.
-/

/-- Full effect of a non-empty-trim submission. -/
theorem submit_nonempty_core (cc : CompletionClient) (s : AppState)
    (t : String) (h : pyStrip t ≠ "") :
    (submit cc t s).context =
      s.context ++
        [⟨Role.user, pyStrip t⟩,
         ⟨Role.assistant, cc_result cc (s.context ++ [⟨Role.user, pyStrip t⟩])⟩] ∧
    (submit cc t s).panels =
      s.panels ++
        [renderRow ⟨Role.user, pyStrip t⟩,
         renderRow ⟨Role.assistant,
           cc_result cc (s.context ++ [⟨Role.user, pyStrip t⟩])⟩] ∧
    (submit cc t s).chat_area = (submit cc t s).panels ∧
    (submit cc t s).inp = "" ∧
    (submit cc t s).nCalls = s.nCalls + 1 ∧
    (submit cc t s).nRenders = s.nRenders + 2 ∧
    (submit cc t s).nGreetings = s.nGreetings ∧
    (submit cc t s).nNotices = s.nNotices := by
  unfold submit
  rw [on_send_click_of_nonempty cc _ h]
  refine ⟨?_, ?_, rfl, rfl, rfl, ?_, rfl, rfl⟩
  · simp
  · simp
  · show s.nRenders + 1 + 1 = s.nRenders + 2
    omega

/-- Full effect of an empty-trim submission. -/
theorem submit_empty_core (cc : CompletionClient) (s : AppState)
    (t : String) (h : pyStrip t = "") :
    (submit cc t s).context = s.context ++ [⟨Role.assistant, oops_notice⟩] ∧
    (submit cc t s).panels =
      s.panels ++ [renderRow ⟨Role.assistant, oops_notice⟩] ∧
    (submit cc t s).chat_area = (submit cc t s).panels ∧
    (submit cc t s).inp = t ∧
    (submit cc t s).nCalls = s.nCalls ∧
    (submit cc t s).nRenders = s.nRenders + 1 ∧
    (submit cc t s).nGreetings = s.nGreetings ∧
    (submit cc t s).nNotices = s.nNotices + 1 := by
  unfold submit
  rw [on_send_click_of_empty cc _ h]
  exact ⟨rfl, rfl, rfl, rfl, rfl, rfl, rfl, rfl⟩

/-- Effect of `reset_memory` on any state whose log starts with the
system prompt (every reachable state does). -/
theorem reset_memory_of_head (s : AppState)
    (h : s.context.head? = some sys_message) :
    (reset_memory s).context = [sys_message, greet_message] ∧
    (reset_memory s).panels = [renderRow greet_message] ∧
    (reset_memory s).chat_area = [renderRow greet_message] ∧
    (reset_memory s).inp = s.inp := by
  obtain ⟨x, t, hxt⟩ : ∃ x t, s.context = x :: t := by
    cases hc : s.context with
    | nil => rw [hc] at h; simp at h
    | cons x t => exact ⟨x, t, rfl⟩
  have hx : x = sys_message := by rw [hxt] at h; simpa using h
  unfold reset_memory boot_greeting
  refine ⟨?_, rfl, rfl, rfl⟩
  simp [hxt, hx]
  rfl

/-- All message texts stay nonempty provided the client never replies
with the empty string. -/
theorem texts_nonempty_invariant (cc : CompletionClient)
    (hcc : ∀ l r, cc l = Except.ok r → r ≠ "") (ops : List Op) (s : AppState)
    (hs : ∀ m ∈ s.context, m.text ≠ "") :
    ∀ m ∈ (run cc s ops).context, m.text ≠ "" := by
  induction ops generalizing s with
  | nil => exact hs
  | cons op rest ih =>
    refine ih _ ?_
    cases op with
    | reset =>
      intro m hm
      unfold step reset_memory boot_greeting at hm
      simp only [add_message_context] at hm
      rcases List.mem_append.mp hm with h1 | h2
      · exact hs m (List.take_subset 1 s.context h1)
      · have : m = ⟨Role.assistant, bot_greet⟩ := by simpa using h2
        rw [this]
        decide
    | submit text =>
      intro m hm
      by_cases he : pyStrip text = ""
      · have hcx := (submit_empty_core cc s text he).1
        unfold step at hm
        rw [hcx] at hm
        rcases List.mem_append.mp hm with h1 | h2
        · exact hs m h1
        · have : m = ⟨Role.assistant, oops_notice⟩ := by simpa using h2
          rw [this]
          decide
      · have hcx := (submit_nonempty_core cc s text he).1
        unfold step at hm
        rw [hcx] at hm
        rcases List.mem_append.mp hm with h1 | h2
        · exact hs m h1
        · have hres : cc_result cc (s.context ++ [⟨Role.user, pyStrip text⟩]) ≠ "" := by
            unfold cc_result
            cases hcl : cc (s.context ++ [⟨Role.user, pyStrip text⟩]) with
            | ok r => exact hcc _ r hcl
            | error e =>
              show apology ≠ ""
              decide
          rcases (by simpa using h2 :
              m = ⟨Role.user, pyStrip text⟩ ∨
                m = ⟨Role.assistant,
                  cc_result cc (s.context ++ [⟨Role.user, pyStrip text⟩])⟩) with
            h3 | h3
          · rw [h3]
            exact he
          · rw [h3]
            exact hres

/-
The claims.
-/

/-- C1: for every sequence of submit and reset operations starting from
the freshly constructed session, entry 0 of the message log is always
the original system-prompt message; no operation alters, removes or
reorders it, and reset restores the log to start from it verbatim. -/
theorem log_head_always_system (cc : CompletionClient) (ops : List Op) :
    (run cc initState ops).context.head? = some sys_message :=
  (inv_run cc ops initState inv_init).head_sys

/-- C2: for every input whose trimmed form is nonempty, submit appends
exactly one user entry carrying the trimmed text, then one assistant
entry whose text is the result of calling the completion client once
on the entire current log (user turn included), and renders twice. -/
theorem submit_nonempty_shape (cc : CompletionClient) (s : AppState)
    (t : String) (h : pyStrip t ≠ "") :
    (submit cc t s).context =
      s.context ++
        [⟨Role.user, pyStrip t⟩,
         ⟨Role.assistant, cc_result cc (s.context ++ [⟨Role.user, pyStrip t⟩])⟩] ∧
    (submit cc t s).nCalls = s.nCalls + 1 ∧
    (submit cc t s).nRenders = s.nRenders + 2 := by
  obtain ⟨h1, _, _, _, h5, h6, _, _⟩ := submit_nonempty_core cc s t h
  exact ⟨h1, h5, h6⟩

/-- Witness for C2 at a concrete submission. -/
theorem submit_nonempty_shape_witness :
    pyStrip "hello" ≠ "" ∧
    (submit ccHi "hello" initState).nCalls = initState.nCalls + 1 :=
  ⟨by decide, (submit_nonempty_shape ccHi initState "hello" (by decide)).2.1⟩

/-- C3: when the completion client raises on a non-empty-trim
submission, submit still returns normally (it is a total function of
the state) and the log grows by exactly the user turn followed by one
assistant entry carrying the apology text, the same shape as success. -/
theorem submit_client_error_swallowed (cc : CompletionClient) (s : AppState)
    (t : String) (h : pyStrip t ≠ "")
    (hfail : cc (s.context ++ [⟨Role.user, pyStrip t⟩]) = Except.error ()) :
    (submit cc t s).context =
      s.context ++ [⟨Role.user, pyStrip t⟩, ⟨Role.assistant, apology⟩] ∧
    (submit cc t s).context.length = s.context.length + 2 := by
  have hc := (submit_nonempty_core cc s t h).1
  have hres : cc_result cc (s.context ++ [⟨Role.user, pyStrip t⟩]) = apology := by
    unfold cc_result
    rw [hfail]
  rw [hres] at hc
  refine ⟨hc, ?_⟩
  rw [hc]
  simp

/-- Witness for C3 with an always-raising client. -/
theorem submit_client_error_swallowed_witness :
    pyStrip "hello" ≠ "" ∧
    (submit ccFail "hello" initState).context.length =
      initState.context.length + 2 :=
  ⟨by decide,
   (submit_client_error_swallowed ccFail initState "hello" (by decide) rfl).2⟩

/-- C4: after any prior operation sequence, reset leaves the log at
exactly the system entry followed by the greeting entry, and a second
reset yields the same observable state (log, rows, displayed chat,
input) as the first. -/
theorem reset_two_entries_idempotent (cc : CompletionClient) (ops : List Op) :
    (reset_memory (run cc initState ops)).context =
      [sys_message, greet_message] ∧
    (reset_memory (reset_memory (run cc initState ops))).context =
      (reset_memory (run cc initState ops)).context ∧
    (reset_memory (reset_memory (run cc initState ops))).panels =
      (reset_memory (run cc initState ops)).panels ∧
    (reset_memory (reset_memory (run cc initState ops))).chat_area =
      (reset_memory (run cc initState ops)).chat_area ∧
    (reset_memory (reset_memory (run cc initState ops))).inp =
      (reset_memory (run cc initState ops)).inp := by
  have hinv := inv_run cc ops initState inv_init
  have h1 := reset_memory_of_head _ hinv.head_sys
  have hhead2 :
      (reset_memory (run cc initState ops)).context.head? = some sys_message := by
    rw [h1.1]
    rfl
  have h2 := reset_memory_of_head _ hhead2
  refine ⟨h1.1, ?_, ?_, ?_, h2.2.2.2⟩
  · rw [h2.1, h1.1]
  · rw [h2.2.1, h1.2.1]
  · rw [h2.2.2.1, h1.2.2.1]

/-- C5: a submission that trims to empty appends exactly one assistant
entry, the canned notice, appends no user entry, and never invokes the
completion client. -/
theorem submit_empty_notice_no_call (cc : CompletionClient) (s : AppState)
    (t : String) (h : pyStrip t = "") :
    (submit cc t s).context = s.context ++ [⟨Role.assistant, oops_notice⟩] ∧
    (submit cc t s).nCalls = s.nCalls := by
  obtain ⟨h1, _, _, _, h5, _, _, _⟩ := submit_empty_core cc s t h
  exact ⟨h1, h5⟩

/-- Witness for C5 at a whitespace-only submission. -/
theorem submit_empty_notice_no_call_witness :
    pyStrip "  " = "" ∧
    (submit ccHi "  " initState).nCalls = initState.nCalls :=
  ⟨by decide, (submit_empty_notice_no_call ccHi initState "  " (by decide)).2⟩

/-- C6 counterexample: submitting whitespace from the fresh session
does change the message log (its length grows), refuting the claim
that an empty-trim submission appends nothing to the log. -/
theorem submit_empty_mutates_log :
    (submit ccHi "   " initState).context.length ≠
      initState.context.length := by
  decide

/-- C6 amended: a submission that trims to empty appends the synthetic
assistant notice to the message log itself (one entry), appends its row
to the transcript, and triggers one render; the log is not left
unchanged. -/
theorem submit_empty_appends_notice_to_log (cc : CompletionClient)
    (s : AppState) (t : String) (h : pyStrip t = "") :
    (submit cc t s).context = s.context ++ [⟨Role.assistant, oops_notice⟩] ∧
    (submit cc t s).panels =
      s.panels ++ [renderRow ⟨Role.assistant, oops_notice⟩] ∧
    (submit cc t s).nRenders = s.nRenders + 1 := by
  obtain ⟨h1, h2, _, _, _, h6, _, _⟩ := submit_empty_core cc s t h
  exact ⟨h1, h2, h6⟩

/-- Witness for the amended C6 at a tab-only submission. -/
theorem submit_empty_appends_notice_to_log_witness :
    pyStrip "\t" = "" ∧
    (submit ccHi "\t" initState).nRenders = initState.nRenders + 1 :=
  ⟨by decide,
   (submit_empty_appends_notice_to_log ccHi initState "\t" (by decide)).2.2⟩

/-- C7 counterexample: when the completion client returns the empty
string, the code appends an assistant entry whose text is empty,
refuting the claim that no transition ever logs an empty user or
assistant turn. -/
theorem empty_reply_appended_to_log :
    (submit ccEmptyReply "hi" initState).context.getLast? =
      some ⟨Role.assistant, ""⟩ := by
  decide

/-- C7 amended: provided the completion client never returns the empty
string, no transition ever appends a user-turn or assistant-turn
message with empty text; without that proviso the empty reply is
logged verbatim. -/
theorem no_empty_turn_text (cc : CompletionClient)
    (hcc : ∀ l r, cc l = Except.ok r → r ≠ "") (ops : List Op) :
    ∀ m ∈ (run cc initState ops).context,
      (m.role = Role.user ∨ m.role = Role.assistant) → m.text ≠ "" := by
  intro m hm _
  refine texts_nonempty_invariant cc hcc ops initState ?_ m hm
  intro m' hm'
  have : m' = sys_message ∨ m' = greet_message := by
    simpa [initState, boot_greeting, initContext, sys_message, greet_message]
      using hm'
  rcases this with h | h <;> rw [h] <;> decide

/-- Witness for the amended C7 on a concrete run. -/
theorem no_empty_turn_text_witness :
    (⟨Role.user, "ping"⟩ : Message).text ≠ "" :=
  no_empty_turn_text ccHi
    (fun l r hr => by
      have hr' : (Except.ok "hi there" : Except Unit String) = Except.ok r := hr
      injection hr' with h
      rw [← h]
      decide)
    [Op.submit "ping"] ⟨Role.user, "ping"⟩ (by decide) (Or.inl rfl)

/-- C8 counterexample: after submitting whitespace from the fresh
session the log holds two assistant entries while only one greeting
was emitted and zero completion-client calls were made, so some
assistant entry exists that neither came from the greeting bootstrap
nor corresponds to a client call. -/
theorem notice_breaks_greeting_only_accounting :
    ¬ (assistantCount (run ccHi initState [Op.submit " "]).context ≤
        (run ccHi initState [Op.submit " "]).nGreetings +
          (run ccHi initState [Op.submit " "]).nCalls) := by
  decide

/-- C8 amended: in every reachable state, every assistant entry in the
log is accounted for by a greeting bootstrap, an empty-input canned
notice, or a completion-client call: the greeting and the notice are
the only ways an assistant entry exists without the client being
consulted. -/
theorem assistant_entries_accounted (cc : CompletionClient) (ops : List Op) :
    assistantCount (run cc initState ops).context ≤
      (run cc initState ops).nGreetings + (run cc initState ops).nNotices +
        (run cc initState ops).nCalls :=
  (inv_run cc ops initState inv_init).assistant_bound

/-- C9: at every reachable state the rendered row list is the 1:1
in-order projection of the log entries after index 0 (so the system
prompt is never rendered and the row count is the log length minus
one), and the displayed chat always holds the entire current row
list. -/
theorem rendered_rows_projection (cc : CompletionClient) (ops : List Op) :
    (run cc initState ops).panels =
      ((run cc initState ops).context.drop 1).map renderRow ∧
    (run cc initState ops).chat_area = (run cc initState ops).panels ∧
    (run cc initState ops).panels.length + 1 =
      (run cc initState ops).context.length := by
  have hinv := inv_run cc ops initState inv_init
  refine ⟨hinv.panels_proj, hinv.chat_sync, ?_⟩
  obtain ⟨x, t, hxt⟩ : ∃ x t, (run cc initState ops).context = x :: t := by
    have hh := hinv.head_sys
    cases hc : (run cc initState ops).context with
    | nil => rw [hc] at hh; simp at hh
    | cons x t => exact ⟨x, t, rfl⟩
  rw [hinv.panels_proj, hxt]
  simp

/-- C10: the send callback clears the pending input exactly when the
submitted text has a nonempty trim (for every client, so independently
of the call's outcome), and a whitespace-only submission leaves the
input contents unchanged. -/
theorem input_cleared_iff_nonempty (cc : CompletionClient) (s : AppState) :
    (pyStrip s.inp ≠ "" → (on_send_click cc s).inp = "") ∧
    (pyStrip s.inp = "" → (on_send_click cc s).inp = s.inp) := by
  constructor
  · intro h
    rw [on_send_click_of_nonempty cc s h]
    rfl
  · intro h
    rw [on_send_click_of_empty cc s h]
    rfl

/-- Witness for C10 on a nonempty and a whitespace-only input. -/
theorem input_cleared_iff_nonempty_witness :
    (on_send_click ccHi { initState with inp := "hello" }).inp = "" ∧
    (on_send_click ccHi { initState with inp := " " }).inp =
      ({ initState with inp := " " } : AppState).inp :=
  ⟨(input_cleared_iff_nonempty ccHi { initState with inp := "hello" }).1
      (by decide),
   (input_cleared_iff_nonempty ccHi { initState with inp := " " }).2
      (by decide)⟩

end TrustedBot
